import Mathlib

/-!
Shallow embedding of `sushy_tools/emulator/drivers/novadriver.py`
(`OpenStackDriver`): a Redfish-style BMC emulation layer over an
OpenStack compute backend.

The backend (`self._cc`, an openstacksdk connection) is modelled as an
explicit `Cloud` value: a list of server records, a flavor catalog, and
the configured cloud name.  Read operations are pure functions of the
`Cloud`; the two mutating operations return the resulting backend state
(`set_boot_device`, whose metadata write is a state change) or the list
of compute commands issued (`set_power_state`, which is fire-and-forget:
the power transition itself is asynchronous on the backend side and the
driver does not wait for it).

Errors: the driver raises only `sushy_tools.error.FishyError`, modelled
by `FishyError` carrying the message string (the spec's `NotFound` and
`UnsupportedOperation` taxonomy is realized by the two distinct message
shapes).  A Python exception that is *not* a `FishyError` — in this
driver, the `AttributeError` from evaluating `None.ram` / `None.vcpus`
when the flavor lookup came back empty — escapes the `except FishyError`
handlers and is modelled by `PyExn`.
-/

set_option linter.unusedVariables false

namespace NovaDriver

/-- `sushy_tools.error.FishyError`: the one exception class the driver
raises itself, carrying a human-readable message. -/
structure FishyError where
  msg : String
deriving DecidableEq

/-- A Python exception escaping the driver that is not a `FishyError`.
`attributeError a` models `AttributeError` raised by accessing attribute
`a` on `None`. -/
inductive PyExn where
  | attributeError (attr : String)
deriving DecidableEq

/-- A Nova server record as the driver reads it: canonical id,
numeric power-state code, flavor reference, and the server metadata map
(an association list, as returned by `get_server_metadata(...).to_dict()`). -/
structure Server where
  id : String
  power_state : Nat
  flavorId : String
  metadata : List (String × String)
deriving DecidableEq

/-- A Nova flavor (resource profile): id, RAM in the backend's units,
and virtual CPU count. -/
structure Flavor where
  id : String
  ram : Nat
  vcpus : Nat
deriving DecidableEq

/-- The backend compute service state visible through `self._cc`,
plus the configured cloud name (`self._os_cloud`). -/
structure Cloud where
  os_cloud : String
  servers : List Server
  flavors : List Flavor
deriving DecidableEq

/-- `self._cc.get_server(identity)`: first server matching the identity,
or `none` (Python `None`) when the backend reports no match. -/
def get_server (c : Cloud) (identity : String) : Option Server :=
  c.servers.find? (fun s => s.id == identity)

/-- `self._cc.get_flavor(flavor_id)`: openstacksdk cloud-layer lookup;
returns `none` (Python `None`) when the flavor is absent from the catalog. -/
def get_flavor (c : Cloud) (fid : String) : Option Flavor :=
  c.flavors.find? (fun f => f.id == fid)

/-- The message `_get_instance` raises with: embeds the identity and the
cloud name, exactly as the `%`-formatted string in the source. -/
def notFoundMsg (identity os_cloud : String) : String :=
  "Error finding instance by UUID \"" ++ identity ++ "\" at OS cloud "
    ++ os_cloud ++ "\""

/-- `OpenStackDriver._get_instance`: resolve identity to a server record,
raising `FishyError` (the not-found message) when the backend has no match. -/
def get_instance (c : Cloud) (identity : String) : Except FishyError Server :=
  match get_server c identity with
  | some server => .ok server
  | none => .error ⟨notFoundMsg identity c.os_cloud⟩

/-- `OpenStackDriver._get_flavor`: resolve the instance, then look up its
flavor.  The source does not check the flavor lookup result, so a missing
flavor yields `.ok none` (Python `None`), not a `FishyError`. -/
def get_flavor_of (c : Cloud) (identity : String) :
    Except FishyError (Option Flavor) :=
  match get_instance c identity with
  | .error e => .error e
  | .ok inst => .ok (get_flavor c inst.flavorId)

/-- `OpenStackDriver.NOVA_POWER_STATE_ON = 1`. -/
def NOVA_POWER_STATE_ON : Nat := 1

/-- `OpenStackDriver.BOOT_DEVICE_MAP`. -/
def BOOT_DEVICE_MAP : List (String × String) :=
  [("Pxe", "network"), ("Hdd", "hd"), ("Cd", "cdrom")]

/-- `OpenStackDriver.BOOT_DEVICE_MAP_REV`: the reverse mapping. -/
def BOOT_DEVICE_MAP_REV : List (String × String) :=
  BOOT_DEVICE_MAP.map (fun p => (p.2, p.1))

/-- `OpenStackDriver.uuid`: canonical id of the resolved instance;
propagates the resolution `FishyError`. -/
def uuid (c : Cloud) (identity : String) : Except FishyError String :=
  match get_instance c identity with
  | .error e => .error e
  | .ok inst => .ok inst.id

/-- `OpenStackDriver.get_power_state`: `None` on resolution failure
(the `except FishyError: return` branch), otherwise `On` exactly when the
power-state code equals `NOVA_POWER_STATE_ON`, else `Off`. -/
def get_power_state (c : Cloud) (identity : String) : Option String :=
  match get_instance c identity with
  | .error _ => none
  | .ok inst =>
    if inst.power_state == NOVA_POWER_STATE_ON then some "On" else some "Off"

/-- A compute command issued to the backend by `set_power_state`. -/
inductive NovaCommand where
  | start_server (id : String)
  | stop_server (id : String)
  | reboot_server (id : String) (reboot_type : String)
deriving DecidableEq

/-- `OpenStackDriver.set_power_state`: the list of compute commands issued
(the backend transition is fire-and-forget, so the `Cloud` itself is not
changed by the call), paired with the raised `FishyError`, if any. -/
def set_power_state (c : Cloud) (identity state : String) :
    List NovaCommand × Option FishyError :=
  match get_instance c identity with
  | .error e => ([], some e)
  | .ok inst =>
    if state == "On" || state == "ForceOn" then
      (if inst.power_state != NOVA_POWER_STATE_ON
       then [.start_server inst.id] else [], none)
    else if state == "ForceOff" then
      (if inst.power_state == NOVA_POWER_STATE_ON
       then [.stop_server inst.id] else [], none)
    else if state == "GracefulShutdown" then
      (if inst.power_state == NOVA_POWER_STATE_ON
       then [.stop_server inst.id] else [], none)
    else if state == "GracefulRestart" then
      (if inst.power_state == NOVA_POWER_STATE_ON
       then [.reboot_server inst.id "SOFT"] else [], none)
    else if state == "ForceRestart" then
      (if inst.power_state == NOVA_POWER_STATE_ON
       then [.reboot_server inst.id "HARD"] else [], none)
    else
      ([], some ⟨"Unknown ResetType \"" ++ state ++ "\""⟩)

/-- `self._cc.compute.get_server_metadata(sid).to_dict()`: the metadata
map of the server with canonical id `sid`. -/
def get_server_metadata (c : Cloud) (sid : String) : List (String × String) :=
  match get_server c sid with
  | some s => s.metadata
  | none => []

/-- Python truthiness of `metadata.get(key)` for string-valued metadata:
a missing key (`None`) and the empty string are falsy, any other string
is truthy. -/
def truthy : Option String → Bool
  | none => false
  | some s => s != ""

/-- `OpenStackDriver.get_boot_device`: `None` on resolution failure,
otherwise `BOOT_DEVICE_MAP_REV` applied to `network` when the
`libvirt:pxe-first` metadata flag is truthy and to `hd` otherwise. -/
def get_boot_device (c : Cloud) (identity : String) : Option String :=
  match get_instance c identity with
  | .error _ => none
  | .ok inst =>
    let metadata := get_server_metadata c inst.id
    if truthy (metadata.lookup "libvirt:pxe-first") then
      BOOT_DEVICE_MAP_REV.lookup "network"
    else
      BOOT_DEVICE_MAP_REV.lookup "hd"

/-- One key-value update of a metadata map, as the backend applies
`set_server_metadata(sid, {k: v})`: `k` now maps to `v`, other keys keep
their values. -/
def setMeta (m : List (String × String)) (k v : String) :
    List (String × String) :=
  (k, v) :: m.filter (fun p => p.1 != k)

/-- `self._cc.compute.set_server_metadata(sid, {k: v})`: merge the pair
into the metadata of every server whose canonical id is `sid`. -/
def set_server_metadata (c : Cloud) (sid k v : String) : Cloud :=
  { c with
    servers := c.servers.map (fun s =>
      if s.id == sid then { s with metadata := setMeta s.metadata k v }
      else s) }

/-- `OpenStackDriver.set_boot_device`: resolve the instance (raising
`FishyError` on failure), look the requested device up in
`BOOT_DEVICE_MAP` (raising `FishyError` with the `Unknown power state
requested` message on a `KeyError`), then write `libvirt:pxe-first` as
`"1"` when the target is `network` and as `""` otherwise.  Returns the
resulting backend state and the raised error, if any; on an error the
state is returned unchanged (no metadata write happens). -/
def set_boot_device (c : Cloud) (identity boot_source : String) :
    Cloud × Option FishyError :=
  match get_instance c identity with
  | .error e => (c, some e)
  | .ok inst =>
    match BOOT_DEVICE_MAP.lookup boot_source with
    | none => (c, some ⟨"Unknown power state requested: " ++ boot_source⟩)
    | some target =>
      (set_server_metadata c inst.id "libvirt:pxe-first"
        (if target == "network" then "1" else ""), none)

/-- `OpenStackDriver.get_total_memory`: `None` when resolution raises
`FishyError`; `AttributeError` (uncaught in the source: only `FishyError`
is caught) when the flavor lookup returned `None` and `flavor.ram` is
evaluated; otherwise `int(math.ceil(flavor.ram / 1024.))`.  Division by
`1024.` is exact in binary floating point for any representable `ram`
(below `2 ^ 53`), so the result is the integer ceiling of `ram / 1024`,
embedded as `(ram + 1023) / 1024` in natural-number arithmetic. -/
def get_total_memory (c : Cloud) (identity : String) :
    Except PyExn (Option Nat) :=
  match get_flavor_of c identity with
  | .error _ => .ok none
  | .ok none => .error (.attributeError "ram")
  | .ok (some flavor) => .ok (some ((flavor.ram + 1023) / 1024))

/-- `OpenStackDriver.get_total_cpus`: same shape as `get_total_memory`,
returning the raw `vcpus` count. -/
def get_total_cpus (c : Cloud) (identity : String) :
    Except PyExn (Option Nat) :=
  match get_flavor_of c identity with
  | .error _ => .ok none
  | .ok none => .error (.attributeError "vcpus")
  | .ok (some flavor) => .ok (some flavor.vcpus)

/-! Concrete backend states used by witnesses and counterexamples. -/

/-- A flavor with 1537 RAM units and 4 vCPUs. -/
def exFlavor : Flavor := { id := "f1", ram := 1537, vcpus := 4 }

/-- A powered-on server referencing flavor `f1`, with empty metadata. -/
def exServer : Server :=
  { id := "i1", power_state := 1, flavorId := "f1", metadata := [] }

/-- A backend with one server and its flavor present. -/
def exCloud : Cloud :=
  { os_cloud := "mycloud", servers := [exServer], flavors := [exFlavor] }

/-- Same backend with a 2048-RAM flavor instead. -/
def exCloud2048 : Cloud :=
  { os_cloud := "mycloud", servers := [exServer],
    flavors := [{ id := "f1", ram := 2048, vcpus := 4 }] }

/-- A backend whose server `i1` references flavor `f1`, but whose flavor
catalog is empty: the dangling-profile state. -/
def exCloudNoFlavor : Cloud :=
  { os_cloud := "mycloud", servers := [exServer], flavors := [] }

end NovaDriver

/-!
Helper lemmas about instance resolution and metadata updates, followed by
one theorem per specification claim (with a closed witness for each
theorem that has hypotheses).
-/

namespace NovaDriver

/-- A successfully resolved server carries the identity it was found by
(resolution matches on the canonical id). -/
lemma get_server_id {c : Cloud} {i : String} {inst : Server}
    (h : get_server c i = some inst) : inst.id = i := by
  unfold get_server at h
  have h2 := List.find?_some h
  simpa using h2

/-- `_get_instance` succeeds exactly when the backend lookup does. -/
lemma get_instance_ok {c : Cloud} {i : String} {inst : Server}
    (h : get_server c i = some inst) : get_instance c i = .ok inst := by
  unfold get_instance
  rw [h]

/-- `_get_instance` raises the not-found `FishyError` when the backend
lookup reports no match. -/
lemma get_instance_err {c : Cloud} {i : String}
    (h : get_server c i = none) :
    get_instance c i = .error ⟨notFoundMsg i c.os_cloud⟩ := by
  unfold get_instance
  rw [h]

/-- The key just written by a metadata update reads back as the written
value. -/
lemma lookup_setMeta (m : List (String × String)) (k v : String) :
    (setMeta m k v).lookup k = some v := by
  simp [setMeta, List.lookup]

/-- Updating the metadata of the server a lookup resolves to does not
change which server the lookup resolves to; only its metadata changes. -/
lemma find?_map_update (l : List Server) (i k v : String) (inst : Server)
    (h : l.find? (fun s => s.id == i) = some inst) :
    (l.map (fun s =>
      if s.id == inst.id then { s with metadata := setMeta s.metadata k v }
      else s)).find? (fun s => s.id == i)
      = some { inst with metadata := setMeta inst.metadata k v } := by
  rw [List.find?_map]
  have hcomp : ((fun s : Server => s.id == i) ∘ (fun s =>
      if s.id == inst.id then { s with metadata := setMeta s.metadata k v }
      else s)) = fun s : Server => s.id == i := by
    funext s
    by_cases hh : s.id = inst.id <;> simp [Function.comp, hh]
  rw [hcomp, h]
  simp

/-- After `set_server_metadata` on a resolved server, the same identity
resolves to that server with the updated metadata. -/
lemma get_server_set_server_metadata {c : Cloud} {i k v : String}
    {inst : Server} (h : get_server c i = some inst) :
    get_server (set_server_metadata c inst.id k v) i
      = some { inst with metadata := setMeta inst.metadata k v } := by
  unfold get_server at h ⊢
  unfold set_server_metadata
  exact find?_map_update c.servers i k v inst h

/-- Reading the boot device right after writing the `libvirt:pxe-first`
flag with value `v` reduces to the truthiness test on `v`. -/
lemma get_boot_device_after_set {c : Cloud} {i v : String} {inst : Server}
    (h : get_server c i = some inst) :
    get_boot_device
        (set_server_metadata c inst.id "libvirt:pxe-first" v) i
      = if truthy (some v) then BOOT_DEVICE_MAP_REV.lookup "network"
        else BOOT_DEVICE_MAP_REV.lookup "hd" := by
  have hid := get_server_id h
  subst hid
  have h1 := get_server_set_server_metadata
    (k := "libvirt:pxe-first") (v := v) h
  have hi1 := get_instance_ok h1
  have hm : get_server_metadata
      (set_server_metadata c inst.id "libvirt:pxe-first" v)
      ({ inst with
         metadata := setMeta inst.metadata "libvirt:pxe-first" v }).id
      = setMeta inst.metadata "libvirt:pxe-first" v := by
    unfold get_server_metadata
    rw [h1]
  simp [get_boot_device, hi1, hm, lookup_setMeta]

/-- Claim C1 (corrected): the claim as written is false — `"Cd"` is in
`BOOT_DEVICE_MAP` (mapped to `cdrom`), so `set_boot_device` with `"Cd"`
does not raise and does mutate the backend metadata.  This closed
counterexample exhibits both failures at a concrete backend state. -/
theorem c1_cd_counterexample :
    (set_boot_device exCloud "i1" "Cd").2 = none
    ∧ (set_boot_device exCloud "i1" "Cd").1 ≠ exCloud := by
  constructor <;> decide

/-- Claim C1 (amended): for every existing instance, `set_boot_device`
with a device outside the three-element map `BOOT_DEVICE_MAP` (any
unrecognized token — but not `"Cd"`, which the map supports) raises a
`FishyError` naming the token, before any backend metadata write: the
returned backend state is exactly the input state. -/
theorem c1_unknown_device_rejected (c : Cloud) (i b : String)
    (inst : Server) (h : get_server c i = some inst)
    (hb : BOOT_DEVICE_MAP.lookup b = none) :
    set_boot_device c i b
      = (c, some ⟨"Unknown power state requested: " ++ b⟩) := by
  have hi := get_instance_ok h
  simp [set_boot_device, hi, hb]

/-- Witness for C1 at the unrecognized token `"Floppy"`. -/
theorem c1_unknown_device_rejected_witness :
    BOOT_DEVICE_MAP.lookup "Floppy" = none
    ∧ set_boot_device exCloud "i1" "Floppy"
      = (exCloud, some ⟨"Unknown power state requested: " ++ "Floppy"⟩) :=
  ⟨by decide,
   c1_unknown_device_rejected exCloud "i1" "Floppy" exServer
     (by decide) (by decide)⟩

/-- Claim C2: when instance resolution fails, the four read-only queries
return the undetermined sentinel (`none` / Python `None`) and never
raise, while `uuid`, `set_power_state` and `set_boot_device` propagate
the resolution failure as the not-found `FishyError` (for any requested
token or device), with no command issued and the backend state
unchanged. -/
theorem c2_resolution_failure (c : Cloud) (i : String)
    (h : get_server c i = none) :
    get_power_state c i = none
    ∧ get_boot_device c i = none
    ∧ get_total_memory c i = .ok none
    ∧ get_total_cpus c i = .ok none
    ∧ uuid c i = .error ⟨notFoundMsg i c.os_cloud⟩
    ∧ (∀ s, set_power_state c i s = ([], some ⟨notFoundMsg i c.os_cloud⟩))
    ∧ (∀ b, set_boot_device c i b
        = (c, some ⟨notFoundMsg i c.os_cloud⟩)) := by
  have hi := get_instance_err h
  refine ⟨?_, ?_, ?_, ?_, ?_, ?_, ?_⟩ <;>
    simp [get_power_state, get_boot_device, get_total_memory,
          get_total_cpus, uuid, set_power_state, set_boot_device,
          get_flavor_of, hi]

/-- Witness for C2 at the absent identity `"ghost"`. -/
theorem c2_resolution_failure_witness :
    get_power_state exCloud "ghost" = none
    ∧ get_boot_device exCloud "ghost" = none
    ∧ get_total_memory exCloud "ghost" = .ok none
    ∧ get_total_cpus exCloud "ghost" = .ok none
    ∧ uuid exCloud "ghost" = .error ⟨notFoundMsg "ghost" exCloud.os_cloud⟩
    ∧ set_power_state exCloud "ghost" "On"
        = ([], some ⟨notFoundMsg "ghost" exCloud.os_cloud⟩)
    ∧ set_boot_device exCloud "ghost" "Pxe"
        = (exCloud, some ⟨notFoundMsg "ghost" exCloud.os_cloud⟩) := by
  have h := c2_resolution_failure exCloud "ghost" (by decide)
  exact ⟨h.1, h.2.1, h.2.2.1, h.2.2.2.1, h.2.2.2.2.1,
         h.2.2.2.2.2.1 "On", h.2.2.2.2.2.2 "Pxe"⟩

/-- Claim C3: for a resolvable instance, `get_power_state` returns `On`
exactly when the backend power-state code equals `NOVA_POWER_STATE_ON`,
and returns `Off` for every other code. -/
theorem c3_power_state_mapping (c : Cloud) (i : String) (inst : Server)
    (h : get_server c i = some inst) :
    (get_power_state c i = some "On"
      ↔ inst.power_state = NOVA_POWER_STATE_ON)
    ∧ (inst.power_state ≠ NOVA_POWER_STATE_ON →
      get_power_state c i = some "Off") := by
  have hi := get_instance_ok h
  constructor
  · constructor
    · intro hOn
      by_contra hp
      simp [get_power_state, hi, hp] at hOn
    · intro hp
      simp [get_power_state, hi, hp]
  · intro hp
    simp [get_power_state, hi, hp]

/-- Witness for C3 at a powered-on instance. -/
theorem c3_power_state_mapping_witness :
    (get_power_state exCloud "i1" = some "On"
      ↔ exServer.power_state = NOVA_POWER_STATE_ON)
    ∧ (exServer.power_state ≠ NOVA_POWER_STATE_ON →
      get_power_state exCloud "i1" = some "Off") :=
  c3_power_state_mapping exCloud "i1" exServer (by decide)

/-- Claim C4: for a resolvable instance whose flavor reports raw memory
`fl.ram`, `get_total_memory` returns exactly the ceiling of
`fl.ram / 1024`: the unique `n` with `fl.ram ≤ 1024 * n < fl.ram + 1024`
(so never the floor and never round-to-nearest). -/
theorem c4_memory_ceiling (c : Cloud) (i : String) (inst : Server)
    (fl : Flavor) (h : get_server c i = some inst)
    (hf : get_flavor c inst.flavorId = some fl) :
    ∃ n, get_total_memory c i = .ok (some n)
      ∧ fl.ram ≤ 1024 * n ∧ 1024 * n < fl.ram + 1024 := by
  have hi := get_instance_ok h
  refine ⟨(fl.ram + 1023) / 1024, ?_, ?_, ?_⟩
  · simp [get_total_memory, get_flavor_of, hi, hf]
  · have h1 := Nat.div_add_mod (fl.ram + 1023) 1024
    have h2 : (fl.ram + 1023) % 1024 < 1024 := Nat.mod_lt _ (by norm_num)
    omega
  · have h1 := Nat.div_add_mod (fl.ram + 1023) 1024
    have h2 : (fl.ram + 1023) % 1024 < 1024 := Nat.mod_lt _ (by norm_num)
    omega

/-- Witness for C4: 1537 raw units round up to 2, and exactly 2048 raw
units give 2 — the claim's two concrete examples. -/
theorem c4_memory_ceiling_witness :
    (∃ n, get_total_memory exCloud "i1" = .ok (some n)
      ∧ exFlavor.ram ≤ 1024 * n ∧ 1024 * n < exFlavor.ram + 1024)
    ∧ get_total_memory exCloud "i1" = .ok (some 2)
    ∧ get_total_memory exCloud2048 "i1" = .ok (some 2) :=
  ⟨c4_memory_ceiling exCloud "i1" exServer exFlavor (by decide) (by decide),
   rfl, rfl⟩

/-- Claim C5: for every existing instance, `set_boot_device` with `Pxe`
followed by `get_boot_device` returns `Pxe`, and the same round trip
holds for `Hdd` — the two devices round-trip through the
`libvirt:pxe-first` metadata flag. -/
theorem c5_boot_device_roundtrip (c : Cloud) (i : String) (inst : Server)
    (h : get_server c i = some inst) :
    (set_boot_device c i "Pxe").2 = none
    ∧ get_boot_device (set_boot_device c i "Pxe").1 i = some "Pxe"
    ∧ (set_boot_device c i "Hdd").2 = none
    ∧ get_boot_device (set_boot_device c i "Hdd").1 i = some "Hdd" := by
  have hi := get_instance_ok h
  have hlp : BOOT_DEVICE_MAP.lookup "Pxe" = some "network" := by decide
  have hlh : BOOT_DEVICE_MAP.lookup "Hdd" = some "hd" := by decide
  have hbn : (("hd" == "network") : Bool) = false := by decide
  have hp : set_boot_device c i "Pxe"
      = (set_server_metadata c inst.id "libvirt:pxe-first" "1", none) := by
    simp [set_boot_device, hi, hlp]
  have hh : set_boot_device c i "Hdd"
      = (set_server_metadata c inst.id "libvirt:pxe-first" "", none) := by
    simp [set_boot_device, hi, hlh, hbn]
  refine ⟨by simp [hp], ?_, by simp [hh], ?_⟩
  · rw [hp]
    have := get_boot_device_after_set (v := "1") h
    simpa [truthy] using this
  · rw [hh]
    have := get_boot_device_after_set (v := "") h
    simpa [truthy] using this

/-- Witness for C5 on the one-server backend. -/
theorem c5_boot_device_roundtrip_witness :
    (set_boot_device exCloud "i1" "Pxe").2 = none
    ∧ get_boot_device (set_boot_device exCloud "i1" "Pxe").1 "i1"
        = some "Pxe"
    ∧ (set_boot_device exCloud "i1" "Hdd").2 = none
    ∧ get_boot_device (set_boot_device exCloud "i1" "Hdd").1 "i1"
        = some "Hdd" :=
  c5_boot_device_roundtrip exCloud "i1" exServer (by decide)

/-- Claim C6: `set_power_state` is state-checked and idempotent: a
request whose target already matches the current power state issues no
backend command (already-On `On`/`ForceOn` issue zero starts, so two
consecutive such calls issue zero starts in total; already-off stop and
restart requests issue nothing), and every call issues at most one
backend command. -/
theorem c6_power_idempotent (c : Cloud) (i : String) (inst : Server)
    (h : get_server c i = some inst) :
    (inst.power_state = NOVA_POWER_STATE_ON →
      (set_power_state c i "On").1 = []
      ∧ (set_power_state c i "ForceOn").1 = []
      ∧ ((set_power_state c i "On").1
          ++ (set_power_state c i "On").1).length = 0)
    ∧ (inst.power_state ≠ NOVA_POWER_STATE_ON →
      (set_power_state c i "ForceOff").1 = []
      ∧ (set_power_state c i "GracefulShutdown").1 = []
      ∧ (set_power_state c i "GracefulRestart").1 = []
      ∧ (set_power_state c i "ForceRestart").1 = [])
    ∧ (∀ s, ((set_power_state c i s).1).length ≤ 1) := by
  have hi := get_instance_ok h
  refine ⟨?_, ?_, ?_⟩
  · intro hp
    refine ⟨?_, ?_, ?_⟩ <;> simp [set_power_state, hi, hp]
  · intro hp
    refine ⟨?_, ?_, ?_, ?_⟩ <;> simp [set_power_state, hi, hp]
  · intro s
    unfold set_power_state
    rw [hi]
    split
    · rename_i e heq
      exact Except.noConfusion heq
    · rename_i inst2 heq
      injection heq with h2
      subst h2
      split <;> (try split) <;> (try split) <;> (try split) <;>
        (try split) <;> (try split) <;> simp

/-- Witness for C6 at an already-On instance. -/
theorem c6_power_idempotent_witness :
    (set_power_state exCloud "i1" "On").1 = []
    ∧ (set_power_state exCloud "i1" "ForceOn").1 = []
    ∧ ((set_power_state exCloud "i1" "On").1
        ++ (set_power_state exCloud "i1" "On").1).length = 0
    ∧ ((set_power_state exCloud "i1" "ForceRestart").1).length ≤ 1 := by
  have h := c6_power_idempotent exCloud "i1" exServer (by decide)
  have h1 := h.1 (by decide)
  exact ⟨h1.1, h1.2.1, h1.2.2, h.2.2 "ForceRestart"⟩

/-- Claim C7: for every existing instance, `set_power_state` with a
token outside the six-element enumeration raises a `FishyError` whose
message embeds the rejected token, and no backend start, stop or reboot
command is issued. -/
theorem c7_unknown_reset_type (c : Cloud) (i s : String) (inst : Server)
    (h : get_server c i = some inst)
    (hs : s ∉ (["On", "ForceOn", "ForceOff", "GracefulShutdown",
                "GracefulRestart", "ForceRestart"] : List String)) :
    set_power_state c i s
      = ([], some ⟨"Unknown ResetType \"" ++ s ++ "\""⟩) := by
  have hi := get_instance_ok h
  simp only [List.mem_cons, List.mem_singleton, not_or] at hs
  obtain ⟨h1, h2, h3, h4, h5, h6⟩ := hs
  simp [set_power_state, hi, h1, h2, h3, h4, h5, h6]

/-- Witness for C7 at the token `"Nmi"`: the error message names it and
the command list is empty. -/
theorem c7_unknown_reset_type_witness :
    set_power_state exCloud "i1" "Nmi"
      = ([], some ⟨"Unknown ResetType \"" ++ "Nmi" ++ "\""⟩) :=
  c7_unknown_reset_type exCloud "i1" "Nmi" exServer (by decide) (by decide)

/-- Claim C8: for every existing instance, `get_boot_device` returns
`Pxe` exactly when the `libvirt:pxe-first` metadata value is present and
truthy and `Hdd` when it is absent or falsy; it never returns `Cd` and
never the undetermined sentinel when the instance exists. -/
theorem c8_boot_device_read (c : Cloud) (i : String) (inst : Server)
    (h : get_server c i = some inst) :
    (truthy (inst.metadata.lookup "libvirt:pxe-first") = true →
      get_boot_device c i = some "Pxe")
    ∧ (truthy (inst.metadata.lookup "libvirt:pxe-first") = false →
      get_boot_device c i = some "Hdd")
    ∧ get_boot_device c i ≠ none
    ∧ get_boot_device c i ≠ some "Cd" := by
  have hid := get_server_id h
  subst hid
  have hi := get_instance_ok h
  have hm : get_server_metadata c inst.id = inst.metadata := by
    unfold get_server_metadata
    rw [h]
  have hn : BOOT_DEVICE_MAP_REV.lookup "network" = some "Pxe" := by decide
  have hd : BOOT_DEVICE_MAP_REV.lookup "hd" = some "Hdd" := by decide
  by_cases ht : truthy (inst.metadata.lookup "libvirt:pxe-first") <;>
    simp [get_boot_device, hi, hm, ht, hn, hd]

/-- Witness for C8 at an instance with no metadata: the flag is absent,
so the device reads as `Hdd` and is not `Cd`. -/
theorem c8_boot_device_read_witness :
    get_boot_device exCloud "i1" = some "Hdd"
    ∧ get_boot_device exCloud "i1" ≠ some "Cd" := by
  have h := c8_boot_device_read exCloud "i1" exServer (by decide)
  exact ⟨h.2.1 (by decide), h.2.2.2⟩

/-- Claim C9 (code bug): with the instance resolvable but its referenced
flavor gone from the catalog, `get_total_memory` and `get_total_cpus` do
not return the undetermined sentinel — the unchecked flavor lookup comes
back empty and the attribute access on it raises `AttributeError`, which
the `except FishyError` handler does not catch. -/
theorem c9_missing_flavor_raises :
    get_server exCloudNoFlavor "i1" = some exServer
    ∧ get_flavor exCloudNoFlavor exServer.flavorId = none
    ∧ get_total_memory exCloudNoFlavor "i1"
        = .error (.attributeError "ram")
    ∧ get_total_cpus exCloudNoFlavor "i1"
        = .error (.attributeError "vcpus") :=
  ⟨by decide, by decide, rfl, rfl⟩

/-- Claim C10: `BOOT_DEVICE_MAP` does contain `"Cd" → "cdrom"`, so for
every existing instance `set_boot_device` with `"Cd"` succeeds, writes
the falsy empty string to the `libvirt:pxe-first` flag, and the
subsequent `get_boot_device` returns `Hdd`. -/
theorem c10_cd_supported (c : Cloud) (i : String) (inst : Server)
    (h : get_server c i = some inst) :
    BOOT_DEVICE_MAP.lookup "Cd" = some "cdrom"
    ∧ (set_boot_device c i "Cd").2 = none
    ∧ (get_server_metadata (set_boot_device c i "Cd").1 i).lookup
        "libvirt:pxe-first" = some ""
    ∧ get_boot_device (set_boot_device c i "Cd").1 i = some "Hdd" := by
  have hi := get_instance_ok h
  have hlc : BOOT_DEVICE_MAP.lookup "Cd" = some "cdrom" := by decide
  have hbn : (("cdrom" == "network") : Bool) = false := by decide
  have hc : set_boot_device c i "Cd"
      = (set_server_metadata c inst.id "libvirt:pxe-first" "", none) := by
    simp [set_boot_device, hi, hlc, hbn]
  have hid := get_server_id h
  subst hid
  have h1 := get_server_set_server_metadata
    (k := "libvirt:pxe-first") (v := "") h
  refine ⟨hlc, by simp [hc], ?_, ?_⟩
  · rw [hc]
    have hm : get_server_metadata
        (set_server_metadata c inst.id "libvirt:pxe-first" "") inst.id
        = setMeta inst.metadata "libvirt:pxe-first" "" := by
      unfold get_server_metadata
      rw [h1]
    simp [hm, lookup_setMeta]
  · rw [hc]
    have := get_boot_device_after_set (v := "") h
    simpa [truthy] using this

/-- Witness for C10 on the one-server backend. -/
theorem c10_cd_supported_witness :
    BOOT_DEVICE_MAP.lookup "Cd" = some "cdrom"
    ∧ (set_boot_device exCloud "i1" "Cd").2 = none
    ∧ (get_server_metadata (set_boot_device exCloud "i1" "Cd").1
        "i1").lookup "libvirt:pxe-first" = some ""
    ∧ get_boot_device (set_boot_device exCloud "i1" "Cd").1 "i1"
        = some "Hdd" :=
  c10_cd_supported exCloud "i1" exServer (by decide)

end NovaDriver
